import Mathlib

/-!
Verification of the incremental streaming-protocol assembler of the `aj`
repository (`src/anthropic-sdk/src/streaming.rs` and the data model of
`src/anthropic-sdk/src/messages.rs`).

The Rust code is shallowly embedded: the mutable `StreamProcessor` becomes a
record threaded through a step function, Rust `u64` counters become `Nat`
with wrapping (`% 2 ^ 64`) where the source adds them, Rust `String`
becomes Lean `String` (`push_str` is append), and `serde_json::from_str`
(an external dependency) is abstracted as a `parse : String → Except String
Json` argument of the step function; a concrete executable parser
`Json.parse` is supplied for closed evaluations.
-/

namespace AJ

/-- Wrapping 64-bit addition, modelling Rust `u64` addition (`+=`). -/
def add64 (a b : Nat) : Nat := (a + b) % 2 ^ 64

/-- Models `serde_json::Value` (numbers restricted to integers, which is all
the concrete evaluations in this development need). -/
inductive Json where
  | null : Json
  | bool (b : Bool) : Json
  | num (n : Int) : Json
  | str (s : String) : Json
  | arr (elems : List Json) : Json
  | obj (fields : List (String × Json)) : Json

/-- `messages.rs`: `enum Citation`. -/
inductive Citation where
  | charLocation (cited_text : String) (document_index : Nat)
      (document_title : Option String) (end_char_index start_char_index : Nat)
  | pageLocation (cited_text : String) (document_index : Nat)
      (document_title : Option String) (end_page_number start_page_number : Nat)
  | contentBlockLocation (cited_text : String) (document_index : Nat)
      (document_title : Option String) (end_block_index start_block_index : Nat)
  | webSearchResultLocation (cited_text encrypted_index : String)
      (title : Option String) (url : String)

/-- `messages.rs`: `enum WebSearchToolResultContent`. -/
inductive WebSearchToolResultContent where
  | webSearchResult (encrypted_content title url : String) (page_age : Option String)
  | webSearchError (error_code : String)

/-- `messages.rs`: `enum ContentBlock`. -/
inductive ContentBlock where
  | textBlock (text : String) (citations : List Citation)
  | toolUseBlock (id : String) (input : Json) (name : String)
  | serverToolUseBlock (id : String) (input : Json) (name : String)
  | webSearchToolResultBlock (content : List WebSearchToolResultContent)
      (tool_use_id : String)
  | codeExecutionToolResultBlock (content : List Json) (tool_use_id : String)
  | mcpToolUseBlock (id : String) (input : Json) (name : String)
      (server_name : String)
  | mcpToolResultBlock (content : List Json) (is_error : Bool)
      (tool_use_id : String)
  | containerUploadBlock (file_id : String)
  | thinkingBlock (signature : String) (thinking : String)
  | redactedThinkingBlock (data : String)

/-- `messages.rs`: `enum StopReason`. -/
inductive StopReason where
  | endTurn | maxTokens | stopSequence | toolUse | pauseTurn | refusal

/-- `messages.rs`: `struct CacheCreation`. -/
structure CacheCreation where
  ephemeral_1h_input_tokens : Nat
  ephemeral_5m_input_tokens : Nat

/-- `messages.rs`: `struct ServerToolUsage`. -/
structure ServerToolUsage where
  web_search_requests : Nat

/-- `messages.rs`: `enum ServiceTier`. -/
inductive ServiceTier where
  | standard | priority | batch

/-- `messages.rs`: `struct Usage`. -/
structure Usage where
  cache_creation : Option CacheCreation
  cache_creation_input_tokens : Option Nat
  cache_read_input_tokens : Option Nat
  input_tokens : Nat
  output_tokens : Nat
  server_tool_use : Option ServerToolUsage
  service_tier : Option ServiceTier

/-- `messages.rs`: `struct UsageDelta`. -/
structure UsageDelta where
  cache_creation : Option CacheCreation
  cache_creation_input_tokens : Option Nat
  cache_read_input_tokens : Option Nat
  input_tokens : Option Nat
  output_tokens : Option Nat
  server_tool_use : Option ServerToolUsage
  service_tier : Option ServiceTier

/-- `messages.rs`: `Usage::update`, field by field: the `cache_*`,
`server_tool_use` and `service_tier` fields overwrite when the delta carries
`Some`, while `input_tokens`/`output_tokens` are added (Rust `u64 +=`,
modelled as wrapping addition). -/
def Usage.update (self : Usage) (delta : UsageDelta) : Usage :=
  let self := match delta.cache_creation with
    | some cache_creation => { self with cache_creation := some cache_creation }
    | none => self
  let self := match delta.cache_creation_input_tokens with
    | some n => { self with cache_creation_input_tokens := some n }
    | none => self
  let self := match delta.cache_read_input_tokens with
    | some n => { self with cache_read_input_tokens := some n }
    | none => self
  let self := match delta.input_tokens with
    | some n => { self with input_tokens := add64 self.input_tokens n }
    | none => self
  let self := match delta.output_tokens with
    | some n => { self with output_tokens := add64 self.output_tokens n }
    | none => self
  let self := match delta.server_tool_use with
    | some s => { self with server_tool_use := some s }
    | none => self
  let self := match delta.service_tier with
    | some t => { self with service_tier := some t }
    | none => self
  self

/-- `messages.rs`: `enum MessageType`. -/
inductive MessageType where
  | message

/-- `messages.rs`: `enum Role`. -/
inductive Role where
  | user | assistant

/-- `messages.rs`: `struct Container`. -/
structure Container where
  expires_at : String
  id : String

/-- `messages.rs`: `struct Message`. -/
structure Message where
  id : String
  type : MessageType
  role : Role
  content : List ContentBlock
  model : String
  stop_reason : Option StopReason
  stop_sequence : Option String
  usage : Usage
  container : Option Container

/-- `messages.rs`: `struct ApiError`. -/
structure ApiError where
  type : String
  message : String

/-- `messages.rs`: `struct MessageDelta`. -/
structure MessageDelta where
  stop_reason : Option StopReason
  stop_sequence : Option String

/-- `messages.rs`: `enum ContentBlockDelta`; the `input_json_delta` payload
field is `partial_json` in the source, named `part_json` here. -/
inductive ContentBlockDelta where
  | textDelta (text : String)
  | thinkingDelta (thinking : String)
  | signatureDelta (signature : String)
  | inputJsonDelta (part_json : String)

/-- `messages.rs`: `enum ServerSentEvent` (the wire events). -/
inductive ServerSentEvent where
  | messageStart (message : Message)
  | messageDelta (delta : MessageDelta) (usage : UsageDelta)
  | messageStop
  | contentBlockStart (index : Nat) (content_block : ContentBlock)
  | contentBlockDelta (index : Nat) (delta : ContentBlockDelta)
  | contentBlockStop (index : Nat)
  | ping
  | error (error : ApiError)

/-- `streaming.rs`: `enum StreamingEvent` (the semantic events). -/
inductive StreamingEvent where
  | messageStart (message : Message)
  | usageUpdate (usage : UsageDelta)
  | finalizedMessage (message : Message)
  | error (error : ApiError)
  | textStart (text : String) (citations : List Citation)
  | textUpdate (diff snapshot : String)
  | textStop (text : String)
  | thinkingStart (thinking : String)
  | thinkingUpdate (diff snapshot : String)
  | thinkingStop
  | parseError (error raw_data : String)
  | protocolError (error : String)

/-- `streaming.rs`: `struct StreamProcessor` (the assembler state). -/
structure StreamProcessor where
  current_message : Option Message
  current_content_block : Option ContentBlock
  current_json : Option String

/-- `streaming.rs`: `StreamProcessor::new`. -/
def StreamProcessor.new : StreamProcessor :=
  { current_message := none, current_content_block := none, current_json := none }

/-- `streaming.rs`: `StreamProcessor::process_event`, translated branch by
branch. Rust mutation of `self` becomes returning the next state alongside
the emitted `Option StreamingEvent`. `Option::replace` keeps its Rust
semantics: the incoming value is stored even when the branch then returns a
`ProtocolError` (so a duplicate start overwrites), and `Option::take` clears
the field even when a later check in the same branch fails.
`serde_json::from_str` is the `parse` argument. -/
def StreamProcessor.process_event (parse : String → Except String Json)
    (self : StreamProcessor) (event : ServerSentEvent) :
    StreamProcessor × Option StreamingEvent :=
  match event with
  | .messageStart message =>
    let prev := self.current_message
    let self := { self with current_message := some message }
    if prev.isSome then
      (self, some (.protocolError
        "got new message start while we're already assembling a message"))
    else
      (self, some (.messageStart message))
  | .messageDelta delta usage =>
    match self.current_message with
    | none =>
      (self, some (.protocolError "got message delta but don't have a current message"))
    | some message =>
      let message :=
        { message with
          stop_reason := delta.stop_reason
          stop_sequence := delta.stop_sequence
          usage := message.usage.update usage }
      ({ self with current_message := some message }, some (.usageUpdate usage))
  | .messageStop =>
    match self.current_message with
    | none =>
      (self, some (.protocolError "got message stop but don't have a current message"))
    | some message =>
      ({ self with current_message := none }, some (.finalizedMessage message))
  | .ping => (self, none)
  | .error error => (self, some (.error error))
  | .contentBlockStart _ content_block =>
    let prev := self.current_content_block
    let self := { self with current_content_block := some content_block }
    if prev.isSome then
      (self, some (.protocolError
        "got new content block start while we're already assembling a content block"))
    else
      match content_block with
      | .textBlock text citations => (self, some (.textStart text citations))
      | .thinkingBlock _ thinking => (self, some (.thinkingStart thinking))
      | _ => ({ self with current_json := some "" }, none)
  | .contentBlockDelta index delta =>
    match self.current_content_block with
    | none =>
      (self, some (.protocolError
        "got content block delta but don't have a current content block"))
    | some content_block =>
      match self.current_message with
      | none =>
        (self, some (.protocolError
          "got content block delta but don't have a current message"))
      | some current_message =>
        if current_message.content.length ≠ index then
          (self, some (.protocolError
            s!"got content block delta for index {index} but current message has {current_message.content.length} content blocks"))
        else
          match delta with
          | .textDelta text =>
            match content_block with
            | .textBlock current_text citations =>
              let current_text := current_text ++ text
              ({ self with current_content_block := some (.textBlock current_text citations) },
                some (.textUpdate text current_text))
            | _ =>
              (self, some (.protocolError "got text delta for non-text content block"))
          | .thinkingDelta thinking =>
            match content_block with
            | .thinkingBlock signature current_thinking =>
              let current_thinking := current_thinking ++ thinking
              ({ self with current_content_block := some (.thinkingBlock signature current_thinking) },
                some (.thinkingUpdate thinking current_thinking))
            | _ =>
              (self, some (.protocolError "got thinking delta for non-thinking content block"))
          | .signatureDelta signature =>
            match content_block with
            | .thinkingBlock current_signature thinking =>
              let current_signature := current_signature ++ signature
              ({ self with current_content_block := some (.thinkingBlock current_signature thinking) },
                none)
            | _ =>
              (self, some (.protocolError "got signature delta for non-thinking content block"))
          | .inputJsonDelta part_json =>
            match self.current_json with
            | none =>
              (self, some (.protocolError "got input json delta but don't have a current json"))
            | some current_json =>
              ({ self with current_json := some (current_json ++ part_json) }, none)
  | .contentBlockStop _ =>
    match self.current_content_block with
    | none =>
      (self, some (.protocolError
        "got content block stop but don't have a current content block"))
    | some content_block =>
      let self := { self with current_content_block := none }
      match self.current_message with
      | none =>
        (self, some (.protocolError
          "got content block stop but don't have a current message"))
      | some current_message =>
        match content_block with
        | .textBlock text citations =>
          ({ self with current_message := some { current_message with
                content := current_message.content ++ [.textBlock text citations] } },
            some (.textStop text))
        | .thinkingBlock signature thinking =>
          ({ self with current_message := some { current_message with
                content := current_message.content ++ [.thinkingBlock signature thinking] } },
            some .thinkingStop)
        | .toolUseBlock id _ name =>
          match self.current_json with
          | none =>
            (self, some (.protocolError "got tool use but don't have a current json"))
          | some input_json =>
            let self := { self with current_json := none }
            match parse input_json with
            | .error e =>
              (self, some (.parseError
                s!"failed to parse tool use input json: {e}" input_json))
            | .ok input =>
              ({ self with current_message := some { current_message with
                    content := current_message.content ++ [.toolUseBlock id input name] } },
                none)
        | .serverToolUseBlock id _ name =>
          match self.current_json with
          | none =>
            (self, some (.protocolError "got server tool use but don't have a current json"))
          | some input_json =>
            let self := { self with current_json := none }
            match parse input_json with
            | .error e =>
              (self, some (.parseError
                s!"failed to parse server tool use input json: {e}" input_json))
            | .ok input =>
              ({ self with current_message := some { current_message with
                    content := current_message.content ++ [.serverToolUseBlock id input name] } },
                none)
        | .mcpToolUseBlock id _ name server_name =>
          match self.current_json with
          | none =>
            (self, some (.protocolError "got mcp tool use but don't have a current json"))
          | some input_json =>
            let self := { self with current_json := none }
            match parse input_json with
            | .error e =>
              (self, some (.parseError
                s!"failed to parse mcp tool use input json: {e}" input_json))
            | .ok input =>
              ({ self with current_message := some { current_message with
                    content := current_message.content ++ [.mcpToolUseBlock id input name server_name] } },
                none)
        | other =>
          ({ self with current_message := some { current_message with
                content := current_message.content ++ [other] } },
            none)

/-- `streaming.rs`: `StreamProcessor::process_stream`, demand-free
equivalent: fold `process_event` over the wire-event list, collecting the
yielded semantic events in order (a `None` step yields nothing). -/
def StreamProcessor.process_events (parse : String → Except String Json)
    (self : StreamProcessor) :
    List ServerSentEvent → StreamProcessor × List StreamingEvent
  | [] => (self, [])
  | event :: rest =>
    let p := self.process_event parse event
    let q := StreamProcessor.process_events parse p.1 rest
    (q.1, p.2.toList ++ q.2)

/-- Skip JSON whitespace. -/
def skipWs : List Char → List Char
  | c :: cs =>
    if c = ' ' ∨ c = '\t' ∨ c = '\n' ∨ c = '\r' then skipWs cs else c :: cs
  | [] => []

/-- Read the remainder of a JSON string literal (after the opening quote),
handling the common escapes. -/
def parseStringLit : List Char → Except String (String × List Char)
  | [] => .error "unterminated string"
  | '\"' :: rest => .ok ("", rest)
  | '\\' :: e :: rest => do
    let c ← match e with
      | '\"' => .ok '\"'
      | '\\' => .ok '\\'
      | '/' => .ok '/'
      | 'n' => .ok '\n'
      | 't' => .ok '\t'
      | 'r' => .ok '\r'
      | _ => .error "unsupported escape"
    let (s, rest2) ← parseStringLit rest
    .ok (String.mk (c :: s.data), rest2)
  | '\\' :: [] => .error "unterminated string"
  | c :: rest => do
    let (s, rest2) ← parseStringLit rest
    .ok (String.mk (c :: s.data), rest2)

/-- Read a run of decimal digits. -/
def takeDigits : List Char → List Char × List Char
  | c :: cs =>
    if c.isDigit then
      let (ds, rest) := takeDigits cs
      (c :: ds, rest)
    else ([], c :: cs)
  | [] => ([], [])

/-- Read an integer JSON number literal. -/
def parseNumLit (cs : List Char) : Except String (Json × List Char) :=
  let (neg, cs1) := match cs with
    | '-' :: rest => (true, rest)
    | _ => (false, cs)
  match takeDigits cs1 with
  | ([], _) => .error "expected value"
  | (ds, rest) =>
    let n : Nat := ds.foldl (fun acc c => acc * 10 + (c.toNat - '0'.toNat)) 0
    match rest with
    | '.' :: _ => .error "unsupported number"
    | 'e' :: _ => .error "unsupported number"
    | 'E' :: _ => .error "unsupported number"
    | _ => .ok (if neg then .num (-(n : Int)) else .num (n : Int), rest)

mutual

/-- Fuel-bounded JSON value: the fuel bounds the nesting depth, and the
top-level entry point supplies more fuel than any input could need. -/
def parseVal : Nat → List Char → Except String (Json × List Char)
  | 0, _ => .error "recursion limit exceeded"
  | fuel + 1, cs =>
    match skipWs cs with
    | 'n' :: 'u' :: 'l' :: 'l' :: rest => .ok (.null, rest)
    | 't' :: 'r' :: 'u' :: 'e' :: rest => .ok (.bool true, rest)
    | 'f' :: 'a' :: 'l' :: 's' :: 'e' :: rest => .ok (.bool false, rest)
    | '\"' :: rest => do
      let (s, rest2) ← parseStringLit rest
      .ok (.str s, rest2)
    | '[' :: rest =>
      (match skipWs rest with
      | ']' :: rest2 => .ok (.arr [], rest2)
      | rest2 => do
        let (elems, rest3) ← parseElems fuel rest2
        .ok (.arr elems, rest3))
    | '\x7b' :: rest =>
      (match skipWs rest with
      | '\x7d' :: rest2 => .ok (.obj [], rest2)
      | rest2 => do
        let (fields, rest3) ← parseFields fuel rest2
        .ok (.obj fields, rest3))
    | cs1 => parseNumLit cs1

/-- Fuel-bounded comma-separated JSON array elements, up to `]`. -/
def parseElems : Nat → List Char → Except String (List Json × List Char)
  | 0, _ => .error "recursion limit exceeded"
  | fuel + 1, cs => do
    let (v, rest) ← parseVal fuel cs
    match skipWs rest with
    | ',' :: rest2 => do
      let (vs, rest3) ← parseElems fuel rest2
      .ok (v :: vs, rest3)
    | ']' :: rest2 => .ok ([v], rest2)
    | _ => .error "expected comma or end of array"

/-- Fuel-bounded comma-separated JSON object fields, up to the closing
brace. -/
def parseFields : Nat → List Char → Except String (List (String × Json) × List Char)
  | 0, _ => .error "recursion limit exceeded"
  | fuel + 1, cs =>
    match skipWs cs with
    | '\"' :: rest => do
      let (k, rest2) ← parseStringLit rest
      match skipWs rest2 with
      | ':' :: rest3 => do
        let (v, rest4) ← parseVal fuel rest3
        match skipWs rest4 with
        | ',' :: rest5 => do
          let (fs, rest6) ← parseFields fuel rest5
          .ok ((k, v) :: fs, rest6)
        | '\x7d' :: rest5 => .ok ([(k, v)], rest5)
        | _ => .error "expected comma or end of object"
      | _ => .error "expected colon"
    | _ => .error "expected object key"

end

/-- Models `serde_json::from_str::<serde_json::Value>` (external dependency):
parse a whole string as one JSON value with nothing but whitespace after it.
The theorems below are parameterized over the parse function; this concrete
parser only instantiates them on closed inputs. -/
def Json.parse (s : String) : Except String Json :=
  match parseVal (s.length + 1) s.data with
  | .error e => .error e
  | .ok (v, rest) =>
    match skipWs rest with
    | [] => .ok v
    | _ => .error "trailing characters"

/-- Tool-use-family content blocks: `tool_use`, `server_tool_use`,
`mcp_tool_use` — the kinds whose argument payload is streamed as JSON text
and parsed on block close. -/
def toolUseFamily : ContentBlock → Bool
  | .toolUseBlock .. => true
  | .serverToolUseBlock .. => true
  | .mcpToolUseBlock .. => true
  | _ => false

/-- Whether an emission is one of the error-carrying semantic events
(`ProtocolError`, `ParseError`, `Error`). -/
def isErrorEmission : Option StreamingEvent → Bool
  | some (.protocolError _) => true
  | some (.parseError _ _) => true
  | some (.error _) => true
  | _ => false

/-- Whether an emission is a `ProtocolError`. -/
def isProtocolErrorEmission : Option StreamingEvent → Bool
  | some (.protocolError _) => true
  | _ => false

/-- An empty `Usage` record (all counters zero), for concrete runs. -/
def usage0 : Usage :=
  { cache_creation := none, cache_creation_input_tokens := none
    cache_read_input_tokens := none, input_tokens := 0, output_tokens := 0
    server_tool_use := none, service_tier := none }

/-- A concrete message envelope with an empty content list, as carried by a
`MessageStart` wire event. -/
def msg1 : Message :=
  { id := "1", type := .message, role := .assistant, content := []
    model := "m1", stop_reason := none, stop_sequence := none
    usage := usage0, container := none }

/-- A usage delta carrying only `input_tokens`. -/
def inputTokensDelta (n : Nat) : UsageDelta :=
  { cache_creation := none, cache_creation_input_tokens := none
    cache_read_input_tokens := none, input_tokens := some n
    output_tokens := none, server_tool_use := none, service_tier := none }

/-- A usage delta carrying only `service_tier`. -/
def serviceTierDelta (t : ServiceTier) : UsageDelta :=
  { cache_creation := none, cache_creation_input_tokens := none
    cache_read_input_tokens := none, input_tokens := none
    output_tokens := none, server_tool_use := none, service_tier := some t }

/-- A state with `msg1` open and a fresh empty text block open. -/
def stateTextOpen : StreamProcessor :=
  { current_message := some msg1
    current_content_block := some (.textBlock "" [])
    current_json := none }

/-- C2: from the fresh state, the six-event text scenario
`[MessageStart msg1, ContentBlockStart 0 (TextBlock ""),
ContentBlockDelta 0 (TextDelta "Hi"), ContentBlockDelta 0 (TextDelta " there"),
ContentBlockStop 0, MessageStop]` emits exactly, in order: `MessageStart`,
`TextStart{text:""}`, `TextUpdate{diff:"Hi", snapshot:"Hi"}`,
`TextUpdate{diff:" there", snapshot:"Hi there"}`, `TextStop{text:"Hi there"}`,
and a `FinalizedMessage` whose content list is `[TextBlock "Hi there"]`
(for every parse function, since no tool block is involved). -/
theorem claim2_text_scenario (parse : String → Except String Json) :
    StreamProcessor.process_events parse StreamProcessor.new
      [.messageStart msg1,
       .contentBlockStart 0 (.textBlock "" []),
       .contentBlockDelta 0 (.textDelta "Hi"),
       .contentBlockDelta 0 (.textDelta " there"),
       .contentBlockStop 0,
       .messageStop] =
    (StreamProcessor.new,
      [.messageStart msg1,
       .textStart "" [],
       .textUpdate "Hi" "Hi",
       .textUpdate " there" "Hi there",
       .textStop "Hi there",
       .finalizedMessage { msg1 with content := [.textBlock "Hi there" []] }]) := by
  rfl

/-- C3: `Usage::update` applies each `Some` field of the delta by
overwriting (`cache_creation`, `cache_creation_input_tokens`,
`cache_read_input_tokens`, `server_tool_use`, `service_tier`) or by adding
(`input_tokens`, `output_tokens`, as wrapping `u64` addition); in
particular merging `input_tokens` deltas `Some 5` then `Some 3` yields `8`,
and merging `service_tier` `Some standard` then `Some batch` yields
`batch`. -/
theorem claim3_usage_update_overwrite_add_split :
    (∀ (u : Usage) (d : UsageDelta),
      u.update d =
        { cache_creation :=
            match d.cache_creation with
            | some c => some c
            | none => u.cache_creation
          cache_creation_input_tokens :=
            match d.cache_creation_input_tokens with
            | some n => some n
            | none => u.cache_creation_input_tokens
          cache_read_input_tokens :=
            match d.cache_read_input_tokens with
            | some n => some n
            | none => u.cache_read_input_tokens
          input_tokens :=
            match d.input_tokens with
            | some n => add64 u.input_tokens n
            | none => u.input_tokens
          output_tokens :=
            match d.output_tokens with
            | some n => add64 u.output_tokens n
            | none => u.output_tokens
          server_tool_use :=
            match d.server_tool_use with
            | some t => some t
            | none => u.server_tool_use
          service_tier :=
            match d.service_tier with
            | some t => some t
            | none => u.service_tier }) ∧
    (([inputTokensDelta 5, inputTokensDelta 3].foldl Usage.update usage0).input_tokens = 8) ∧
    (([serviceTierDelta .standard, serviceTierDelta .batch].foldl
        Usage.update usage0).service_tier = some .batch) := by
  refine ⟨fun u d => ?_, rfl, rfl⟩
  obtain ⟨cc, ccit, crit, it, ot, stu, st⟩ := d
  cases cc <;> cases ccit <;> cases crit <;> cases it <;> cases ot <;>
    cases stu <;> cases st <;> rfl

/-- C4: with a content block and a message both open, a `ContentBlockDelta`
whose index differs from the number of already-finalized content blocks of
the current message emits a `ProtocolError` and leaves the whole state
unchanged: no delta is applied. -/
theorem claim4_delta_index_mismatch_protocol_error
    (parse : String → Except String Json) (s : StreamProcessor)
    (b : ContentBlock) (m : Message) (i : Nat) (d : ContentBlockDelta)
    (hb : s.current_content_block = some b)
    (hm : s.current_message = some m)
    (hi : m.content.length ≠ i) :
    ∃ e, s.process_event parse (.contentBlockDelta i d) =
      (s, some (.protocolError e)) := by
  have h : s.process_event parse (.contentBlockDelta i d) =
      (s, some (.protocolError
        s!"got content block delta for index {i} but current message has {m.content.length} content blocks")) := by
    simp only [StreamProcessor.process_event, hb, hm]
    rw [if_pos hi]
  exact ⟨_, h⟩

/-- Witness for C4 at a concrete state: message with zero finalized blocks,
delta at index 1. -/
theorem claim4_witness :
    ∃ e, stateTextOpen.process_event Json.parse
        (.contentBlockDelta 1 (.textDelta "x")) =
      (stateTextOpen, some (.protocolError e)) :=
  claim4_delta_index_mismatch_protocol_error Json.parse stateTextOpen
    (.textBlock "" []) msg1 1 (.textDelta "x") rfl rfl (by decide)

/-- C10: `ContentBlockStart` and `ContentBlockStop` never inspect the
`index` they carry — two runs differing only in that index are identical in
emission and post-state — while `ContentBlockDelta`'s index, by contrast,
is validated (index 0 versus 1 on the same state: no error versus a
protocol error). -/
theorem claim10_start_stop_index_ignored :
    (∀ (parse : String → Except String Json) (s : StreamProcessor)
        (i j : Nat) (cb : ContentBlock),
      s.process_event parse (.contentBlockStart i cb) =
        s.process_event parse (.contentBlockStart j cb)) ∧
    (∀ (parse : String → Except String Json) (s : StreamProcessor) (i j : Nat),
      s.process_event parse (.contentBlockStop i) =
        s.process_event parse (.contentBlockStop j)) ∧
    isErrorEmission (stateTextOpen.process_event Json.parse
      (.contentBlockDelta 0 (.textDelta "x"))).2 = false ∧
    isErrorEmission (stateTextOpen.process_event Json.parse
      (.contentBlockDelta 1 (.textDelta "x"))).2 = true := by
  exact ⟨fun _ _ _ _ _ => rfl, fun _ _ _ _ => rfl, rfl, rfl⟩

/-- Processing a concatenation of wire-event lists is processing the first,
then the second from the intermediate state, with the emissions
concatenated. -/
theorem process_events_append (parse : String → Except String Json)
    (s : StreamProcessor) (l₁ l₂ : List ServerSentEvent) :
    StreamProcessor.process_events parse s (l₁ ++ l₂) =
      ((StreamProcessor.process_events parse
          (StreamProcessor.process_events parse s l₁).1 l₂).1,
        (StreamProcessor.process_events parse s l₁).2 ++
          (StreamProcessor.process_events parse
            (StreamProcessor.process_events parse s l₁).1 l₂).2) := by
  induction l₁ generalizing s with
  | nil => simp [StreamProcessor.process_events]
  | cons e rest ih =>
    simp only [List.cons_append, StreamProcessor.process_events, List.append_eq]
    rw [ih]
    simp [List.append_assoc]

/-- A `ContentBlockStart` carrying a block that is neither text nor thinking
opens the JSON buffer (set to `""`) when no block is open. -/
theorem process_event_tool_start (parse : String → Except String Json)
    (cm : Option Message) (cj : Option String) (i : Nat) (b : ContentBlock)
    (hfam : toolUseFamily b = true) :
    StreamProcessor.process_event parse ⟨cm, none, cj⟩ (.contentBlockStart i b) =
      (⟨cm, some b, some ""⟩, none) := by
  cases b <;> simp [toolUseFamily] at hfam <;> rfl

/-- An `InputJsonDelta` at the matching index appends its fragment to the
JSON buffer and emits nothing. -/
theorem process_event_input_json_delta (parse : String → Except String Json)
    (m : Message) (b : ContentBlock) (buf f : String) :
    StreamProcessor.process_event parse ⟨some m, some b, some buf⟩
      (.contentBlockDelta m.content.length (.inputJsonDelta f)) =
      (⟨some m, some b, some (buf ++ f)⟩, none) := by
  simp [StreamProcessor.process_event]

/-- A run of `InputJsonDelta` events at the matching index accumulates the
concatenation of the fragments into the JSON buffer, emitting nothing. -/
theorem process_events_json_deltas (parse : String → Except String Json)
    (fs : List String) (m : Message) (b : ContentBlock) (buf : String) :
    StreamProcessor.process_events parse ⟨some m, some b, some buf⟩
      (fs.map fun f => .contentBlockDelta m.content.length (.inputJsonDelta f)) =
      (⟨some m, some b, some (fs.foldl (· ++ ·) buf)⟩, []) := by
  induction fs generalizing buf with
  | nil => rfl
  | cons f fs ih =>
    simp only [List.map_cons, StreamProcessor.process_events,
      process_event_input_json_delta, List.foldl_cons]
    rw [ih (buf ++ f)]
    rfl

/-- `ContentBlockStop` on an open tool-use-family block whose buffered JSON
fails to parse clears the block and the buffer, leaves the message (and its
content list) unchanged, and emits one `ParseError` carrying the raw
buffer. -/
theorem process_event_tool_stop_parse_error (parse : String → Except String Json)
    (m : Message) (b : ContentBlock) (j e : String) (i : Nat)
    (hfam : toolUseFamily b = true) (hp : parse j = .error e) :
    ∃ err, StreamProcessor.process_event parse ⟨some m, some b, some j⟩
        (.contentBlockStop i) =
      (⟨some m, none, none⟩, some (.parseError err j)) := by
  cases b with
  | toolUseBlock id input name =>
    exact ⟨s!"failed to parse tool use input json: {e}",
      by simp [StreamProcessor.process_event, hp]⟩
  | serverToolUseBlock id input name =>
    exact ⟨s!"failed to parse server tool use input json: {e}",
      by simp [StreamProcessor.process_event, hp]⟩
  | mcpToolUseBlock id input name server_name =>
    exact ⟨s!"failed to parse mcp tool use input json: {e}",
      by simp [StreamProcessor.process_event, hp]⟩
  | textBlock text citations => simp [toolUseFamily] at hfam
  | webSearchToolResultBlock content tool_use_id => simp [toolUseFamily] at hfam
  | codeExecutionToolResultBlock content tool_use_id => simp [toolUseFamily] at hfam
  | mcpToolResultBlock content is_error tool_use_id => simp [toolUseFamily] at hfam
  | containerUploadBlock file_id => simp [toolUseFamily] at hfam
  | thinkingBlock signature thinking => simp [toolUseFamily] at hfam
  | redactedThinkingBlock data => simp [toolUseFamily] at hfam

/-- C1: for a tool-use-family block streamed as
`ContentBlockStart, InputJsonDelta*, ContentBlockStop` from a state with a
message open and no block open, if the concatenation (in delivery order) of
the `part_json` fragments does not parse, the whole block run emits exactly
one semantic event: a `ParseError` whose `raw_data` is byte-identical to
that concatenation. -/
theorem claim1_invalid_json_one_parse_error_round_trip
    (parse : String → Except String Json) (m : Message) (b : ContentBlock)
    (fs : List String) (i₀ i₁ : Nat) (e : String)
    (hfam : toolUseFamily b = true)
    (hp : parse (fs.foldl (· ++ ·) "") = .error e) :
    ∃ err, StreamProcessor.process_events parse ⟨some m, none, none⟩
        (.contentBlockStart i₀ b ::
          ((fs.map fun f => .contentBlockDelta m.content.length (.inputJsonDelta f)) ++
            [.contentBlockStop i₁])) =
      (⟨some m, none, none⟩, [.parseError err (fs.foldl (· ++ ·) "")]) := by
  obtain ⟨err, hstop⟩ :=
    process_event_tool_stop_parse_error parse m b (fs.foldl (· ++ ·) "") e i₁ hfam hp
  refine ⟨err, ?_⟩
  simp only [StreamProcessor.process_events,
    process_event_tool_start parse (some m) none i₀ b hfam]
  rw [process_events_append]
  rw [process_events_json_deltas parse fs m b ""]
  simp [StreamProcessor.process_events, hstop]

/-- Witness for C1: fragments `["not", " json"]` do not form valid JSON, so
the tool-use block run emits exactly one `ParseError` with
`raw_data = "not json"`. -/
theorem claim1_witness :
    ∃ err, StreamProcessor.process_events Json.parse ⟨some msg1, none, none⟩
        (.contentBlockStart 0 (.toolUseBlock "t1" .null "f1") ::
          ((["not", " json"].map fun f =>
              .contentBlockDelta msg1.content.length (.inputJsonDelta f)) ++
            [.contentBlockStop 0])) =
      (⟨some msg1, none, none⟩,
        [.parseError err (["not", " json"].foldl (· ++ ·) "")]) :=
  claim1_invalid_json_one_parse_error_round_trip Json.parse msg1
    (.toolUseBlock "t1" .null "f1") ["not", " json"] 0 0 "expected value"
    rfl rfl

/-- C9: `ContentBlockStop` on an open tool-use-family block whose buffered
JSON fails to parse leaves the current message (hence its content list)
unchanged — the failed block is never appended — and clears both
`current_content_block` and `current_json` to `none` in the state returned
alongside the emitted `ParseError`. -/
theorem claim9_parse_failure_omits_block_clears_state
    (parse : String → Except String Json) (s : StreamProcessor)
    (b : ContentBlock) (m : Message) (j e : String) (i : Nat)
    (hb : s.current_content_block = some b)
    (hfam : toolUseFamily b = true)
    (hm : s.current_message = some m)
    (hj : s.current_json = some j)
    (hp : parse j = .error e) :
    ∃ err, s.process_event parse (.contentBlockStop i) =
      ({ s with current_content_block := none, current_json := none },
        some (.parseError err j)) := by
  obtain ⟨cm, ccb, cj⟩ := s
  cases hb
  cases hm
  cases hj
  exact process_event_tool_stop_parse_error parse m b j e i hfam hp

/-- A state with `msg1` open, a tool-use block open, and an empty (hence
unparseable) JSON buffer. -/
def stateToolOpen : StreamProcessor :=
  { current_message := some msg1
    current_content_block := some (.toolUseBlock "t1" .null "f1")
    current_json := some "" }

/-- Witness for C9 at `stateToolOpen` (the empty buffer is not valid
JSON). -/
theorem claim9_witness :
    ∃ err, stateToolOpen.process_event Json.parse (.contentBlockStop 0) =
      ({ stateToolOpen with current_content_block := none, current_json := none },
        some (.parseError err "")) :=
  claim9_parse_failure_omits_block_clears_state Json.parse stateToolOpen
    (.toolUseBlock "t1" .null "f1") msg1 "" "expected value" 0
    rfl rfl rfl rfl rfl

/-- Counterexample to C5: after
`MessageStart, ContentBlockStart(text ""), TextDelta "Hi"`, a second
`ContentBlockStart` does emit a `ProtocolError` — but it *replaces* the
open block (its accumulated text `"Hi"` is discarded), so the subsequent
valid delta `" there"` accumulates from the fresh block and snapshots
`" there"`, not `"Hi there"` as the claim requires. -/
theorem claim5_counterexample :
    (StreamProcessor.process_events Json.parse StreamProcessor.new
        [.messageStart msg1,
         .contentBlockStart 0 (.textBlock "" []),
         .contentBlockDelta 0 (.textDelta "Hi"),
         .contentBlockStart 0 (.textBlock "" []),
         .contentBlockDelta 0 (.textDelta " there")]).2 =
      [.messageStart msg1,
       .textStart "" [],
       .textUpdate "Hi" "Hi",
       .protocolError "got new content block start while we're already assembling a content block",
       .textUpdate " there" " there"] ∧
    (StreamProcessor.process_events Json.parse StreamProcessor.new
        [.messageStart msg1,
         .contentBlockStart 0 (.textBlock "" []),
         .contentBlockDelta 0 (.textDelta "Hi"),
         .contentBlockStart 0 (.textBlock "" []),
         .contentBlockDelta 0 (.textDelta " there")]).1.current_content_block ≠
      some (.textBlock "Hi there" []) := by
  refine ⟨rfl, fun h => ?_⟩
  have h' : some (ContentBlock.textBlock " there" []) =
      some (ContentBlock.textBlock "Hi there" []) := h
  injection h' with h''
  injection h'' with ht hc
  exact absurd ht (by decide)

/-- C5 (amended): a second `ContentBlockStart` without an intervening
`ContentBlockStop` emits a `ProtocolError`, but the incoming block
*replaces* the open one (`Option::replace` semantics): the original block's
accumulated state is discarded, and only `current_json` and
`current_message` are left unchanged. -/
theorem claim5_duplicate_start_replaces_block
    (parse : String → Except String Json) (s : StreamProcessor)
    (b : ContentBlock) (i : Nat) (cb : ContentBlock)
    (hb : s.current_content_block = some b) :
    s.process_event parse (.contentBlockStart i cb) =
      ({ s with current_content_block := some cb },
        some (.protocolError
          "got new content block start while we're already assembling a content block")) := by
  simp [StreamProcessor.process_event, hb]

/-- Witness for the amended C5 at `stateTextOpen`. -/
theorem claim5_witness :
    stateTextOpen.process_event Json.parse
        (.contentBlockStart 0 (.thinkingBlock "" "")) =
      ({ stateTextOpen with current_content_block := some (.thinkingBlock "" "") },
        some (.protocolError
          "got new content block start while we're already assembling a content block")) :=
  claim5_duplicate_start_replaces_block Json.parse stateTextOpen
    (.textBlock "" []) 0 (.thinkingBlock "" "") rfl

/-- Counterexample to C7: the assembler keeps emitting after a
`FinalizedMessage` when further wire events arrive — here a second
`MessageStart` after `MessageStop` emits a third semantic event right after
the `FinalizedMessage` at position 1. -/
theorem claim7_counterexample :
    (StreamProcessor.process_events Json.parse StreamProcessor.new
        [.messageStart msg1, .messageStop, .messageStart msg1]).2 =
      [.messageStart msg1, .finalizedMessage msg1, .messageStart msg1] ∧
    (StreamProcessor.process_events Json.parse StreamProcessor.new
        [.messageStart msg1, .messageStop, .messageStart msg1]).2.get? 1 =
      some (.finalizedMessage msg1) ∧
    (StreamProcessor.process_events Json.parse StreamProcessor.new
        [.messageStart msg1, .messageStop, .messageStart msg1]).2.get? 2 =
      some (.messageStart msg1) :=
  ⟨rfl, rfl, rfl⟩

/-- C7 (amended): the assembler emits at most one semantic event per wire
event, in delivery order, and does not itself cut the stream off:
`FinalizedMessage`/`Error` is the final semantic event exactly when the
wire event producing it is the last wire event delivered — whatever
semantic event the last wire event produces is the last semantic event. -/
theorem claim7_last_wire_event_emits_last
    (parse : String → Except String Json) (s : StreamProcessor)
    (evs : List ServerSentEvent) (ev : ServerSentEvent) (x : StreamingEvent)
    (h : ((StreamProcessor.process_events parse s evs).1.process_event parse ev).2 =
      some x) :
    (StreamProcessor.process_events parse s (evs ++ [ev])).2 =
      (StreamProcessor.process_events parse s evs).2 ++ [x] := by
  rw [process_events_append]
  simp [StreamProcessor.process_events, h]

/-- Witness for the amended C7: with `MessageStop` as the last wire event,
`FinalizedMessage` is the last semantic event. -/
theorem claim7_witness :
    (StreamProcessor.process_events Json.parse StreamProcessor.new
        ([.messageStart msg1] ++ [.messageStop])).2 =
      (StreamProcessor.process_events Json.parse StreamProcessor.new
        [.messageStart msg1]).2 ++ [.finalizedMessage msg1] :=
  claim7_last_wire_event_emits_last Json.parse StreamProcessor.new
    [.messageStart msg1] .messageStop (.finalizedMessage msg1) rfl

/-- The precondition-violation (malformed / out-of-order) conditions of the
state machine, per the transition table: duplicate starts, events
referencing absent state, index mismatch, delta/block kind mismatch, a
missing JSON buffer at a tool-use close, an unparseable buffer, and a
server `Error` frame. -/
def malformedInput (parse : String → Except String Json)
    (s : StreamProcessor) : ServerSentEvent → Bool
  | .messageStart _ => s.current_message.isSome
  | .messageDelta _ _ => !s.current_message.isSome
  | .messageStop => !s.current_message.isSome
  | .ping => false
  | .error _ => true
  | .contentBlockStart _ _ => s.current_content_block.isSome
  | .contentBlockDelta i d =>
    match s.current_content_block with
    | none => true
    | some cb =>
      match s.current_message with
      | none => true
      | some m =>
        if m.content.length ≠ i then true
        else
          match d with
          | .textDelta _ =>
            !(match cb with | .textBlock .. => true | _ => false)
          | .thinkingDelta _ =>
            !(match cb with | .thinkingBlock .. => true | _ => false)
          | .signatureDelta _ =>
            !(match cb with | .thinkingBlock .. => true | _ => false)
          | .inputJsonDelta _ => !s.current_json.isSome
  | .contentBlockStop _ =>
    match s.current_content_block with
    | none => true
    | some cb =>
      match s.current_message with
      | none => true
      | some _ =>
        if toolUseFamily cb then
          match s.current_json with
          | none => true
          | some j =>
            match parse j with
            | .error _ => true
            | .ok _ => false
        else false

/-- C8: `process_event` is a total function of state and event (so
processing always continues: the run over a concatenation of event lists is
the run over the first followed by the run over the second from the
intermediate state), and every malformed or out-of-order input produces an
error-carrying semantic event (`ProtocolError`, `ParseError`, or `Error`)
rather than aborting. -/
theorem claim8_total_malformed_becomes_event :
    (∀ (parse : String → Except String Json) (s : StreamProcessor)
        (l₁ l₂ : List ServerSentEvent),
      StreamProcessor.process_events parse s (l₁ ++ l₂) =
        ((StreamProcessor.process_events parse
            (StreamProcessor.process_events parse s l₁).1 l₂).1,
          (StreamProcessor.process_events parse s l₁).2 ++
            (StreamProcessor.process_events parse
              (StreamProcessor.process_events parse s l₁).1 l₂).2)) ∧
    (∀ (parse : String → Except String Json) (s : StreamProcessor)
        (ev : ServerSentEvent),
      (!malformedInput parse s ev ||
        isErrorEmission (s.process_event parse ev).2) = true) := by
  refine ⟨process_events_append, fun parse s ev => ?_⟩
  obtain ⟨cm, ccb, cj⟩ := s
  cases ev with
  | messageStart m => cases cm <;> rfl
  | messageDelta d u => cases cm <;> rfl
  | messageStop => cases cm <;> rfl
  | ping => rfl
  | error e => rfl
  | contentBlockStart i cb => cases ccb <;> rfl
  | contentBlockDelta i d =>
    cases ccb with
    | none => rfl
    | some cb =>
      cases cm with
      | none => rfl
      | some m =>
        simp only [malformedInput, StreamProcessor.process_event]
        by_cases hi : m.content.length ≠ i
        · simp [hi, isErrorEmission]
        · simp only [hi, if_false]
          cases d with
          | textDelta t => cases cb <;> rfl
          | thinkingDelta t => cases cb <;> rfl
          | signatureDelta t => cases cb <;> rfl
          | inputJsonDelta t => cases cj <;> rfl
  | contentBlockStop i =>
    cases ccb with
    | none => rfl
    | some cb =>
      cases cm with
      | none => rfl
      | some m =>
        cases cb with
        | toolUseBlock id input name =>
          cases cj with
          | none => rfl
          | some j =>
            simp only [malformedInput, StreamProcessor.process_event, toolUseFamily]
            rcases hp : parse j with e | v <;> simp [hp, isErrorEmission]
        | serverToolUseBlock id input name =>
          cases cj with
          | none => rfl
          | some j =>
            simp only [malformedInput, StreamProcessor.process_event, toolUseFamily]
            rcases hp : parse j with e | v <;> simp [hp, isErrorEmission]
        | mcpToolUseBlock id input name server_name =>
          cases cj with
          | none => rfl
          | some j =>
            simp only [malformedInput, StreamProcessor.process_event, toolUseFamily]
            rcases hp : parse j with e | v <;> simp [hp, isErrorEmission]
        | textBlock text citations => rfl
        | thinkingBlock signature thinking => rfl
        | webSearchToolResultBlock content tool_use_id => rfl
        | codeExecutionToolResultBlock content tool_use_id => rfl
        | mcpToolResultBlock content is_error tool_use_id => rfl
        | containerUploadBlock file_id => rfl
        | redactedThinkingBlock data => rfl

/-- The buffer/block correspondence: `current_json` is `Some` exactly when
the open content block is of a tool-use-family kind. -/
def jsonBufferInv (s : StreamProcessor) : Bool :=
  s.current_json.isSome ==
    (match s.current_content_block with
     | some b => toolUseFamily b
     | none => false)

/-- Content-block kinds with a defined streaming story: text, thinking, and
the tool-use family. -/
def streamableBlock : ContentBlock → Bool
  | .textBlock .. => true
  | .thinkingBlock .. => true
  | b => toolUseFamily b

/-- A wire event is allowed when any block it starts is streamable. -/
def allowedWire : ServerSentEvent → Bool
  | .contentBlockStart _ cb => streamableBlock cb
  | _ => true

/-- A trace is good from `s` when every event is allowed and no step emits a
`ProtocolError`. -/
def goodTrace (parse : String → Except String Json)
    (s : StreamProcessor) : List ServerSentEvent → Bool
  | [] => true
  | ev :: rest =>
    (allowedWire ev && !isProtocolErrorEmission (s.process_event parse ev).2) &&
      goodTrace parse (s.process_event parse ev).1 rest

/-- One allowed, `ProtocolError`-free step preserves the buffer/block
correspondence. -/
theorem jsonBufferInv_step (parse : String → Except String Json)
    (s : StreamProcessor) (ev : ServerSentEvent)
    (hinv : jsonBufferInv s = true)
    (hok : allowedWire ev = true)
    (hnoerr : isProtocolErrorEmission (s.process_event parse ev).2 = false) :
    jsonBufferInv (s.process_event parse ev).1 = true := by
  obtain ⟨cm, ccb, cj⟩ := s
  cases ev with
  | messageStart m =>
    cases cm <;> simpa [jsonBufferInv, StreamProcessor.process_event] using hinv
  | messageDelta d u =>
    cases cm <;> simpa [jsonBufferInv, StreamProcessor.process_event] using hinv
  | messageStop =>
    cases cm <;> simpa [jsonBufferInv, StreamProcessor.process_event] using hinv
  | ping => simpa [jsonBufferInv, StreamProcessor.process_event] using hinv
  | error e => simpa [jsonBufferInv, StreamProcessor.process_event] using hinv
  | contentBlockStart i cb =>
    cases ccb with
    | some b =>
      simp [StreamProcessor.process_event, isProtocolErrorEmission] at hnoerr
    | none =>
      cases cj with
      | some j => simp [jsonBufferInv] at hinv
      | none =>
        cases cb <;>
          first
            | rfl
            | simp [allowedWire, streamableBlock, toolUseFamily] at hok
  | contentBlockDelta i d =>
    cases ccb with
    | none => simp [StreamProcessor.process_event, isProtocolErrorEmission] at hnoerr
    | some cb =>
      cases cm with
      | none => simp [StreamProcessor.process_event, isProtocolErrorEmission] at hnoerr
      | some m =>
        by_cases hi : m.content.length ≠ i
        · simp [StreamProcessor.process_event, hi, isProtocolErrorEmission] at hnoerr
        · cases d with
          | textDelta t =>
            cases cb <;>
              simp_all [StreamProcessor.process_event, jsonBufferInv,
                isProtocolErrorEmission, toolUseFamily]
          | thinkingDelta t =>
            cases cb <;>
              simp_all [StreamProcessor.process_event, jsonBufferInv,
                isProtocolErrorEmission, toolUseFamily]
          | signatureDelta t =>
            cases cb <;>
              simp_all [StreamProcessor.process_event, jsonBufferInv,
                isProtocolErrorEmission, toolUseFamily]
          | inputJsonDelta t =>
            cases cj with
            | none =>
              simp [StreamProcessor.process_event, hi, isProtocolErrorEmission] at hnoerr
            | some j =>
              simp_all [StreamProcessor.process_event, jsonBufferInv, toolUseFamily]
  | contentBlockStop i =>
    cases ccb with
    | none => simp [StreamProcessor.process_event, isProtocolErrorEmission] at hnoerr
    | some cb =>
      cases cm with
      | none => simp [StreamProcessor.process_event, isProtocolErrorEmission] at hnoerr
      | some m =>
        cases cb with
        | toolUseBlock id input name =>
          cases cj with
          | none => simp [StreamProcessor.process_event, isProtocolErrorEmission] at hnoerr
          | some j =>
            rcases hp : parse j with e | v <;>
              simp [StreamProcessor.process_event, jsonBufferInv, hp]
        | serverToolUseBlock id input name =>
          cases cj with
          | none => simp [StreamProcessor.process_event, isProtocolErrorEmission] at hnoerr
          | some j =>
            rcases hp : parse j with e | v <;>
              simp [StreamProcessor.process_event, jsonBufferInv, hp]
        | mcpToolUseBlock id input name server_name =>
          cases cj with
          | none => simp [StreamProcessor.process_event, isProtocolErrorEmission] at hnoerr
          | some j =>
            rcases hp : parse j with e | v <;>
              simp [StreamProcessor.process_event, jsonBufferInv, hp]
        | textBlock text citations =>
          simpa [jsonBufferInv, StreamProcessor.process_event, toolUseFamily] using hinv
        | thinkingBlock signature thinking =>
          simpa [jsonBufferInv, StreamProcessor.process_event, toolUseFamily] using hinv
        | webSearchToolResultBlock content tool_use_id =>
          simpa [jsonBufferInv, StreamProcessor.process_event, toolUseFamily] using hinv
        | codeExecutionToolResultBlock content tool_use_id =>
          simpa [jsonBufferInv, StreamProcessor.process_event, toolUseFamily] using hinv
        | mcpToolResultBlock content is_error tool_use_id =>
          simpa [jsonBufferInv, StreamProcessor.process_event, toolUseFamily] using hinv
        | containerUploadBlock file_id =>
          simpa [jsonBufferInv, StreamProcessor.process_event, toolUseFamily] using hinv
        | redactedThinkingBlock data =>
          simpa [jsonBufferInv, StreamProcessor.process_event, toolUseFamily] using hinv

/-- A good trace preserves the buffer/block correspondence. -/
theorem jsonBufferInv_trace (parse : String → Except String Json)
    (evs : List ServerSentEvent) (s : StreamProcessor)
    (hinv : jsonBufferInv s = true)
    (hg : goodTrace parse s evs = true) :
    jsonBufferInv (StreamProcessor.process_events parse s evs).1 = true := by
  induction evs generalizing s with
  | nil => exact hinv
  | cons ev rest ih =>
    simp only [goodTrace, Bool.and_eq_true] at hg
    obtain ⟨⟨hok, hnoerr⟩, hrest⟩ := hg
    exact ih _ (jsonBufferInv_step parse _ ev hinv hok (by simpa using hnoerr)) hrest

/-- Counterexample to C6: the state reached from fresh by
`[MessageStart msg1, ContentBlockStart 0 (RedactedThinkingBlock "d")]` has
`current_json = some ""` while the open block is `RedactedThinkingBlock`,
which is not of the tool-use family — the code opens the JSON buffer for
*every* non-text/non-thinking block kind, so the claimed iff fails on a
reachable state. -/
theorem claim6_counterexample :
    jsonBufferInv (StreamProcessor.process_events Json.parse StreamProcessor.new
        [.messageStart msg1,
         .contentBlockStart 0 (.redactedThinkingBlock "d")]).1 = false ∧
    (StreamProcessor.process_events Json.parse StreamProcessor.new
        [.messageStart msg1,
         .contentBlockStart 0 (.redactedThinkingBlock "d")]).1.current_json =
      some "" ∧
    (StreamProcessor.process_events Json.parse StreamProcessor.new
        [.messageStart msg1,
         .contentBlockStart 0 (.redactedThinkingBlock "d")]).1.current_content_block =
      some (.redactedThinkingBlock "d") :=
  ⟨rfl, rfl, rfl⟩

/-- C6 (amended): restricted to traces whose started blocks are text,
thinking, or tool-use-family kinds and on which no step emits a
`ProtocolError`, every state reachable from fresh satisfies: `current_json`
is `Some` iff the open content block is of the tool-use family; moreover in
any such state with a tool-use-family block and a message open, the buffer
is present and is consumed (cleared, together with the block) by that
block's `ContentBlockStop`. -/
theorem claim6_json_buffer_iff_tool_family :
    (∀ (parse : String → Except String Json) (evs : List ServerSentEvent),
      goodTrace parse StreamProcessor.new evs = true →
      jsonBufferInv
        (StreamProcessor.process_events parse StreamProcessor.new evs).1 = true) ∧
    (∀ (parse : String → Except String Json) (s : StreamProcessor)
        (b : ContentBlock) (m : Message) (i : Nat),
      jsonBufferInv s = true →
      s.current_content_block = some b →
      toolUseFamily b = true →
      s.current_message = some m →
      s.current_json.isSome = true ∧
      (s.process_event parse (.contentBlockStop i)).1.current_json = none ∧
      (s.process_event parse (.contentBlockStop i)).1.current_content_block = none) := by
  constructor
  · exact fun parse evs hg => jsonBufferInv_trace parse evs StreamProcessor.new rfl hg
  · intro parse s b m i hinv hb hfam hm
    obtain ⟨cm, ccb, cj⟩ := s
    obtain rfl : ccb = some b := hb
    obtain rfl : cm = some m := hm
    cases cj with
    | none => simp [jsonBufferInv, hfam] at hinv
    | some j =>
      refine ⟨rfl, ?_⟩
      cases b with
      | toolUseBlock id input name =>
        rcases hp : parse j with e | v <;>
          simp [StreamProcessor.process_event, hp]
      | serverToolUseBlock id input name =>
        rcases hp : parse j with e | v <;>
          simp [StreamProcessor.process_event, hp]
      | mcpToolUseBlock id input name server_name =>
        rcases hp : parse j with e | v <;>
          simp [StreamProcessor.process_event, hp]
      | textBlock text citations => simp [toolUseFamily] at hfam
      | webSearchToolResultBlock content tool_use_id => simp [toolUseFamily] at hfam
      | codeExecutionToolResultBlock content tool_use_id => simp [toolUseFamily] at hfam
      | mcpToolResultBlock content is_error tool_use_id => simp [toolUseFamily] at hfam
      | containerUploadBlock file_id => simp [toolUseFamily] at hfam
      | thinkingBlock signature thinking => simp [toolUseFamily] at hfam
      | redactedThinkingBlock data => simp [toolUseFamily] at hfam

/-- Witness for the amended C6: a concrete good trace opening a tool-use
block satisfies the invariant, and the stop from `stateToolOpen` consumes
the buffer. -/
theorem claim6_witness :
    (goodTrace Json.parse StreamProcessor.new
        [.messageStart msg1, .contentBlockStart 0 (.toolUseBlock "t1" .null "f1")] = true ∧
      jsonBufferInv (StreamProcessor.process_events Json.parse StreamProcessor.new
        [.messageStart msg1, .contentBlockStart 0 (.toolUseBlock "t1" .null "f1")]).1 = true) ∧
    (stateToolOpen.current_json.isSome = true ∧
      (stateToolOpen.process_event Json.parse (.contentBlockStop 0)).1.current_json = none ∧
      (stateToolOpen.process_event Json.parse
        (.contentBlockStop 0)).1.current_content_block = none) :=
  ⟨⟨rfl, claim6_json_buffer_iff_tool_family.1 Json.parse
      [.messageStart msg1, .contentBlockStart 0 (.toolUseBlock "t1" .null "f1")] rfl⟩,
    claim6_json_buffer_iff_tool_family.2 Json.parse stateToolOpen
      (.toolUseBlock "t1" .null "f1") msg1 0 rfl rfl rfl rfl⟩

end AJ
